import Mathlib

/-!
Verification of the VRChat log monitor pipeline (Source/VRChatLogMonitor.py).

The Python program tails a log file, matches configured event keys as literal
substrings of each line, timestamps matches, appends them to a day-partitioned
output file, shows them in a display sink, and enqueues them for a Discord
forwarder. This file gives a shallow embedding of the pure logic of that
pipeline and proves the specified properties about it.

Conventions of the embedding:
- Python strings are Lean `String`s; substring containment (`key in line`)
  is the executable `occursIn`.
- `datetime.now()` results are explicit `DateTime` values. `process_line`
  calls `now()` twice (once for the timestamp, once inside
  `get_output_log_filename`), so `processLine` takes two clock readings
  `t1 t2`, in call order.
- File appends, display-sink insertions and queue pushes are recorded in a
  `PipelineState` of chronological effect lists.
- OS effects (env-var expansion, globbing, mtime lookup) are parameters of
  `getLatestLogFile`, supplied by the environment.
-/

/-- Calendar date, as produced by the `%Y-%m-%d` fields of `strftime`. -/
structure Date where
  year : Nat
  month : Nat
  day : Nat
deriving DecidableEq, Repr

/-- Local wall-clock reading, as produced by `datetime.datetime.now()`. -/
structure DateTime where
  date : Date
  hour : Nat
  minute : Nat
  second : Nat
deriving DecidableEq, Repr

/-- The decimal digit character for `n % 10`, i.e. what `strftime` emits for
one digit position. -/
def digitChar (n : Nat) : Char :=
  Char.ofNat (48 + n)

/-- Two-digit zero-padded decimal rendering (`%m`, `%d`, `%H`, `%M`, `%S`),
faithful for `n < 100`. -/
def pad2Chars (n : Nat) : List Char :=
  [digitChar (n / 10 % 10), digitChar (n % 10)]

/-- Four-digit zero-padded decimal rendering (`%Y`), faithful for `n < 10000`. -/
def pad4Chars (n : Nat) : List Char :=
  [digitChar (n / 1000 % 10), digitChar (n / 100 % 10),
   digitChar (n / 10 % 10), digitChar (n % 10)]

/-- Character content of `strftime("%Y-%m-%d")`. -/
def formatDateChars (d : Date) : List Char :=
  pad4Chars d.year ++ ['-'] ++ pad2Chars d.month ++ ['-'] ++ pad2Chars d.day

/-- The string `strftime("%Y-%m-%d")`, used in `get_output_log_filename`. -/
def formatDate (d : Date) : String :=
  ⟨formatDateChars d⟩

/-- Character content of `strftime("%Y-%m-%d %H:%M:%S")`. -/
def formatTimestampChars (t : DateTime) : List Char :=
  formatDateChars t.date ++ [' '] ++ pad2Chars t.hour ++ [':'] ++
    pad2Chars t.minute ++ [':'] ++ pad2Chars t.second

/-- The string `strftime("%Y-%m-%d %H:%M:%S")`, used to timestamp records in
`process_line`. -/
def formatTimestamp (t : DateTime) : String :=
  ⟨formatTimestampChars t⟩

/-- Validity range on which the embedding of `strftime` date formatting is
faithful (real dates satisfy this; years are four digits). -/
def Date.Valid (d : Date) : Prop :=
  d.year < 10000 ∧ 1 ≤ d.month ∧ d.month ≤ 12 ∧ 1 ≤ d.day ∧ d.day ≤ 31

instance (d : Date) : Decidable d.Valid := by
  unfold Date.Valid; exact inferInstance

/-- Validity range of a wall-clock reading. -/
def DateTime.Valid (t : DateTime) : Prop :=
  t.date.Valid ∧ t.hour < 24 ∧ t.minute < 60 ∧ t.second < 60

instance (t : DateTime) : Decidable t.Valid := by
  unfold DateTime.Valid; exact inferInstance

/-- Boolean test that `needle` is an initial segment of `hay`. -/
def isPrefOf : List Char → List Char → Bool
  | [], _ => true
  | _ :: _, [] => false
  | a :: as, b :: bs => a == b && isPrefOf as bs

/-- Boolean substring containment on character lists: Python's `needle in hay`. -/
def occursInChars (needle : List Char) : List Char → Bool
  | [] => needle.isEmpty
  | c :: rest => isPrefOf needle (c :: rest) || occursInChars needle rest

/-- Python's substring test `needle in hay` on strings. -/
def occursIn (needle hay : String) : Bool :=
  occursInChars needle.data hay.data

/-- Per-event configuration value: the entry of the `events` mapping, with its
optional `"color"` field. -/
structure EventData where
  color : Option String
deriving DecidableEq, Repr

/-- The configuration fields of `config.json` that the pipeline reads. The
`events` mapping is carried as a list in insertion (mapping) order, matching
Python dict iteration order. -/
structure Config where
  outputLogPre : String
  discordEnabled : Option Bool
  events : List (String × EventData)
deriving DecidableEq, Repr

/-- The matcher loop head of `process_line`: the first configured event whose
key occurs in the line as a literal substring (`for event_name, event_data in
event_configs.items(): if event_name in line: ... break`). -/
def findEvent (events : List (String × EventData)) (line : String) :
    Option (String × EventData) :=
  events.find? (fun p => occursIn p.1 line)

/-- Observable effects of the pipeline, each as a chronological list:
`files` records `(filename, text)` appends to output files, `sink` records
`(text, tag)` insertions into the display widget, and `queueMsgs` is the
FIFO content of `discord_message_queue` as `(message, hex color)` pairs. -/
structure PipelineState where
  files : List (String × String)
  sink : List (String × String)
  queueMsgs : List (String × String)
deriving DecidableEq, Repr

/-- The filename `f"{output_log_prefix}{YYYY-MM-DD}.txt"` computed by
`get_output_log_filename` from the current date. -/
def getOutputLogFilename (outputLogPre : String) (d : Date) : String :=
  outputLogPre ++ formatDate d ++ ".txt"

/-- One step of `LogMonitor.process_line` on a line. `t1` is the `now()` read
that builds the timestamp, `t2` the `now()` read inside
`get_output_log_filename`; they occur in that order in the source. When an
event matches: append the timestamped record to the day file, insert it in
the sink tagged with the event name, and (via `enqueue_discord_message`,
gated on `discord_config.get("enabled", False)`) push it with the event's
color (`event_data.get("color", "#FFFFFF")`) onto the queue, then break. -/
def processLine (cfg : Config) (t1 t2 : DateTime) (line : String)
    (st : PipelineState) : PipelineState :=
  match findEvent cfg.events line with
  | none => st
  | some ke =>
    let outputLine := formatTimestamp t1 ++ " - " ++ line
    let fname := getOutputLogFilename cfg.outputLogPre t2.date
    let hexColor := ke.2.color.getD "#FFFFFF"
    { files := st.files ++ [(fname, outputLine)]
      sink := st.sink ++ [(outputLine, ke.1)]
      queueMsgs :=
        if cfg.discordEnabled.getD false then
          st.queueMsgs ++ [(outputLine, hexColor)]
        else
          st.queueMsgs }

/-- Python's built-in `max(xs, key=f)` accumulator: replaces the current
best only on a strictly greater key, so the FIRST maximal element wins. -/
def pyMaxGo (key : α → Int) (acc : α) : List α → α
  | [] => acc
  | y :: ys => pyMaxGo key (if key acc < key y then y else acc) ys

/-- Python's `max(xs, key=f)` on a possibly-empty list (`none` on empty;
the source guards the empty case separately). -/
def pyMax (key : α → Int) : List α → Option α
  | [] => none
  | x :: xs => some (pyMaxGo key x xs)

/-- The resolver `get_latest_log_file`. The OS effects are parameters:
`expandEnv` is `os.path.expandvars`, `globFn` is `glob.glob` (returning the
matching paths in enumeration order), `mtime` is `os.path.getmtime`. The
path join `os.path.join(dir, pat)` is modelled as slash concatenation. -/
def getLatestLogFile (expandEnv : String → String) (globFn : String → List String)
    (mtime : String → Int) (logDir logPat : String) : Option String :=
  let pattern := expandEnv logDir ++ "/" ++ logPat
  let matchingFiles := globFn pattern
  if matchingFiles.isEmpty then none
  else pyMax mtime matchingFiles

/-- Accumulator breaking mtime ties toward the LAST observed element
(replaces on greater-or-equal). -/
def lastMaxGo (key : α → Int) (acc : α) : List α → α
  | [] => acc
  | y :: ys => lastMaxGo key (if key acc ≤ key y then y else acc) ys

/-- Modelled from the spec: resolver whose tie-break favours the last file
observed in enumeration order, as the claim words it ("ties broken ... in
favor of the last such file observed in enumeration order"). Used only to
compare against the code's `getLatestLogFile`. -/
def resolveSpecLastTie (expandEnv : String → String) (globFn : String → List String)
    (mtime : String → Int) (logDir logPat : String) : Option String :=
  let pattern := expandEnv logDir ++ "/" ++ logPat
  let matchingFiles := globFn pattern
  match matchingFiles with
  | [] => none
  | x :: xs => some (lastMaxGo mtime x xs)

/-- Python truthiness of `discord_config.get("bot_token")`: falsy when the
key is absent or the string is empty (`if not bot_token`). -/
def pyTruthyStr : Option String → Bool
  | none => false
  | some s => !s.isEmpty

/-- Outcome of `start_discord_bot`. -/
inductive BotStart where
  | noToken
  | started
deriving DecidableEq, Repr

/-- The guard of `start_discord_bot`: with no (or an empty) bot token it
prints an error and returns without running the client. -/
def startDiscordBot (botToken : Option String) : BotStart :=
  if pyTruthyStr botToken then BotStart.started else BotStart.noToken

/-- The channel id `int(discord_config.get("channel_id", 0))`: absent
configuration yields id 0. -/
def effectiveChannelId (channelIdCfg : Option Int) : Int :=
  channelIdCfg.getD 0

/-- Python's `s.lstrip('#')`: drop every leading `'#'`. -/
def pyLstripHash (s : String) : String :=
  ⟨s.data.dropWhile (fun c => c == '#')⟩

/-- Hexadecimal digit test for `int(_, 16)`. -/
def isHexDigitC (c : Char) : Bool :=
  ('0' ≤ c && c ≤ '9') || ('a' ≤ c && c ≤ 'f') || ('A' ≤ c && c ≤ 'F')

/-- Value of a hexadecimal digit character. -/
def hexDigitVal (c : Char) : Nat :=
  if '0' ≤ c && c ≤ '9' then c.toNat - 48
  else if 'a' ≤ c && c ≤ 'f' then c.toNat - 87
  else c.toNat - 55

/-- Accumulating hexadecimal evaluation; `none` as soon as a non-hex
character appears. -/
def hexCoreGo : List Char → Nat → Option Nat
  | [], acc => some acc
  | c :: cs, acc =>
    if isHexDigitC c then hexCoreGo cs (16 * acc + hexDigitVal c) else none

/-- A nonempty run of hexadecimal digits, else `none`. -/
def hexRun : List Char → Option Nat
  | [] => none
  | c :: cs => hexCoreGo (c :: cs) 0

/-- Digit part of an `int(_, 16)` literal: an optional `0x`/`0X` marker
followed by hexadecimal digits. -/
def hexBody : List Char → Option Nat
  | '0' :: x :: rest =>
    if x == 'x' || x == 'X' then hexRun rest else hexRun ('0' :: x :: rest)
  | cs => hexRun cs

/-- Python's `int(s, 16)`: surrounding whitespace, an optional sign, an
optional `0x` marker, then hexadecimal digits; `none` models the
`ValueError` raise. (Digit-group underscores, which cannot occur in color
strings, are not modelled.) -/
def pyIntBase16 (s : String) : Option Int :=
  let core := (((s.data.dropWhile Char.isWhitespace).reverse.dropWhile
    Char.isWhitespace).reverse)
  match core with
  | '+' :: rest => (hexBody rest).map Int.ofNat
  | '-' :: rest => (hexBody rest).map (fun n => -(n : Int))
  | rest => (hexBody rest).map Int.ofNat

/-- Result of one guarded delivery attempt inside
`send_messages_from_queue`: either an embed was sent with the converted
color, or the exception was caught and printed. -/
inductive TryResult where
  | delivered (colorValue : Int)
  | errorLogged
deriving DecidableEq, Repr

/-- The body of the `else: try: ... except Exception` block of
`send_messages_from_queue` for one dequeued `(message, hex_color)` item.
`send` is `channel.send` (its `Except.error` models a raise). Returns the
try outcome together with the list of send calls actually issued. -/
def attemptDelivery (send : String → Int → Except String Unit)
    (item : String × String) : TryResult × List (String × Int) :=
  match pyIntBase16 (pyLstripHash item.2) with
  | none => (TryResult.errorLogged, [])
  | some c =>
    match send item.1 c with
    | Except.ok _ => (TryResult.delivered c, [(item.1, c)])
    | Except.error _ => (TryResult.errorLogged, [(item.1, c)])

/-- The consumer loop `send_messages_from_queue` over the items the queue
yields, in FIFO order. `getChannel` models `self.get_channel(id) is not
None`. With no channel it prints and returns having attempted nothing;
otherwise every item is attempted once, in order, each inside the
try/except guard. -/
def sendMessagesFromQueue (getChannel : Int → Bool) (channelId : Int)
    (send : String → Int → Except String Unit)
    (items : List (String × String)) :
    List ((String × String) × TryResult) :=
  if getChannel channelId then
    items.map (fun it => (it, (attemptDelivery send it).1))
  else
    []

theorem findEvent_eq_none (events : List (String × EventData)) (line : String)
    (h : ∀ p ∈ events, occursIn p.1 line = false) :
    findEvent events line = none := by
  rw [findEvent, List.find?_eq_none]
  intro x hx
  simp [h x hx]

/-- C1: the matcher iterates the configured event keys in mapping order and
fires on the first key occurring in the line as a literal substring; at most
one event fires per line (it returns at most one entry), and none fires when
no key occurs. -/
theorem matcher_first_key_wins (events : List (String × EventData)) (line : String) :
    (∀ ke, findEvent events line = some ke →
      occursIn ke.1 line = true ∧
      ∃ pre post, events = pre ++ ke :: post ∧
        ∀ p ∈ pre, occursIn p.1 line = false) ∧
    ((∀ p ∈ events, occursIn p.1 line = false) → findEvent events line = none) := by
  constructor
  · intro ke h
    rw [findEvent, List.find?_eq_some] at h
    obtain ⟨hp, pre, post, heq, hall⟩ := h
    refine ⟨hp, pre, post, heq, fun p hp2 => ?_⟩
    simpa using hall p hp2
  · exact findEvent_eq_none events line

/-- Witness for C1 at concrete inputs: with keys registered in order
OnPlayerJoined, OnPlayerLeft, a line containing both fires on the
first-registered key, and a line containing neither fires nothing. -/
theorem matcher_first_key_wins_witness :
    occursIn "OnPlayerJoined" "x OnPlayerLeft then OnPlayerJoined" = true ∧
    findEvent [("OnPlayerJoined", ⟨some "#00FF00"⟩), ("OnPlayerLeft", ⟨none⟩)]
      "nothing here" = none := by
  constructor
  · exact ((matcher_first_key_wins
      [("OnPlayerJoined", ⟨some "#00FF00"⟩), ("OnPlayerLeft", ⟨none⟩)]
      "x OnPlayerLeft then OnPlayerJoined").1
      ("OnPlayerJoined", ⟨some "#00FF00"⟩) (by decide)).1
  · exact (matcher_first_key_wins
      [("OnPlayerJoined", ⟨some "#00FF00"⟩), ("OnPlayerLeft", ⟨none⟩)]
      "nothing here").2 (by decide)

/-- C2: a line in which no configured key occurs leaves the whole pipeline
state unchanged: no file write, no sink insertion, no queue push. -/
theorem no_match_no_effect (cfg : Config) (t1 t2 : DateTime) (line : String)
    (st : PipelineState) (h : ∀ p ∈ cfg.events, occursIn p.1 line = false) :
    processLine cfg t1 t2 line st = st := by
  have hn := findEvent_eq_none cfg.events line h
  simp [processLine, hn]

/-- Witness for C2 at a concrete non-matching line and nonempty state. -/
theorem no_match_no_effect_witness :
    processLine ⟨"parsed_log_", some true, [("OnPlayerJoined", ⟨some "#00FF00"⟩)]⟩
      ⟨⟨2025, 3, 1⟩, 12, 0, 0⟩ ⟨⟨2025, 3, 1⟩, 12, 0, 0⟩ "no event here\n"
      ⟨[("f", "r")], [("r", "e")], [("m", "#FFFFFF")]⟩ =
      ⟨[("f", "r")], [("r", "e")], [("m", "#FFFFFF")]⟩ :=
  no_match_no_effect ⟨"parsed_log_", some true, [("OnPlayerJoined", ⟨some "#00FF00"⟩)]⟩
    ⟨⟨2025, 3, 1⟩, 12, 0, 0⟩ ⟨⟨2025, 3, 1⟩, 12, 0, 0⟩ "no event here\n"
    ⟨[("f", "r")], [("r", "e")], [("m", "#FFFFFF")]⟩ (by decide)

theorem formatTimestamp_data_length (t : DateTime) :
    (formatTimestamp t).data.length = 19 := by
  simp [formatTimestamp, formatTimestampChars, formatDateChars, pad2Chars, pad4Chars]

theorem record_head_length (t : DateTime) :
    ((formatTimestamp t ++ " - ").data).length = 22 := by
  rw [String.data_append]
  simp [formatTimestamp, formatTimestampChars, formatDateChars, pad2Chars, pad4Chars]

/-- C3: the record appended for a matched line is exactly the timestamp
(19 characters, local time), then " - ", then the original line unmodified
(terminator included); dropping the 22-character prefix of the appended
record recovers the original line character-for-character. -/
theorem record_roundtrip (cfg : Config) (t1 t2 : DateTime) (line : String)
    (st : PipelineState) (ke : String × EventData)
    (_hv : t1.Valid) (h : findEvent cfg.events line = some ke) :
    (processLine cfg t1 t2 line st).files =
      st.files ++ [(getOutputLogFilename cfg.outputLogPre t2.date,
        formatTimestamp t1 ++ " - " ++ line)] ∧
    (formatTimestamp t1).data.length = 19 ∧
    ((formatTimestamp t1 ++ " - " ++ line).data).take 22 =
      (formatTimestamp t1 ++ " - ").data ∧
    ((formatTimestamp t1 ++ " - " ++ line).data).drop 22 = line.data := by
  refine ⟨?_, formatTimestamp_data_length t1, ?_, ?_⟩
  · simp [processLine, h]
  · rw [String.data_append, List.take_left' (record_head_length t1)]
  · rw [String.data_append, List.drop_left' (record_head_length t1)]

/-- Witness for C3 at a concrete matched line, with the recovered suffix
spelled out. -/
theorem record_roundtrip_witness :
    (processLine ⟨"parsed_log_", some false, [("OnPlayerJoined", ⟨some "#00FF00"⟩)]⟩
      ⟨⟨2025, 3, 1⟩, 12, 0, 5⟩ ⟨⟨2025, 3, 1⟩, 12, 0, 5⟩
      "12:00:00 OnPlayerJoined User123\n" ⟨[], [], []⟩).files =
      [] ++ [(getOutputLogFilename "parsed_log_" ⟨2025, 3, 1⟩,
        formatTimestamp ⟨⟨2025, 3, 1⟩, 12, 0, 5⟩ ++ " - " ++
          "12:00:00 OnPlayerJoined User123\n")] ∧
    (formatTimestamp ⟨⟨2025, 3, 1⟩, 12, 0, 5⟩).data.length = 19 ∧
    ((formatTimestamp ⟨⟨2025, 3, 1⟩, 12, 0, 5⟩ ++ " - " ++
      "12:00:00 OnPlayerJoined User123\n").data).take 22 =
      (formatTimestamp ⟨⟨2025, 3, 1⟩, 12, 0, 5⟩ ++ " - ").data ∧
    ((formatTimestamp ⟨⟨2025, 3, 1⟩, 12, 0, 5⟩ ++ " - " ++
      "12:00:00 OnPlayerJoined User123\n").data).drop 22 =
      ("12:00:00 OnPlayerJoined User123\n" : String).data :=
  record_roundtrip ⟨"parsed_log_", some false, [("OnPlayerJoined", ⟨some "#00FF00"⟩)]⟩
    ⟨⟨2025, 3, 1⟩, 12, 0, 5⟩ ⟨⟨2025, 3, 1⟩, 12, 0, 5⟩
    "12:00:00 OnPlayerJoined User123\n" ⟨[], [], []⟩
    ("OnPlayerJoined", ⟨some "#00FF00"⟩) (by decide) (by decide)

theorem digitChar_inj : ∀ a, a < 10 → ∀ b, b < 10 → digitChar a = digitChar b → a = b := by
  decide

theorem formatDateChars_eq (d : Date) :
    formatDateChars d = [digitChar (d.year / 1000 % 10), digitChar (d.year / 100 % 10),
      digitChar (d.year / 10 % 10), digitChar (d.year % 10), '-',
      digitChar (d.month / 10 % 10), digitChar (d.month % 10), '-',
      digitChar (d.day / 10 % 10), digitChar (d.day % 10)] := rfl

theorem formatDateChars_length (d : Date) : (formatDateChars d).length = 10 := by
  simp [formatDateChars, pad4Chars, pad2Chars]

theorem formatDateChars_inj {d1 d2 : Date} (h1 : d1.Valid) (h2 : d2.Valid)
    (h : formatDateChars d1 = formatDateChars d2) : d1 = d2 := by
  obtain ⟨y1, mo1, da1⟩ := d1
  obtain ⟨y2, mo2, da2⟩ := d2
  obtain ⟨hy1, _, hmo1, _, hda1⟩ := h1
  obtain ⟨hy2, _, hmo2, _, hda2⟩ := h2
  rw [formatDateChars_eq, formatDateChars_eq] at h
  simp only [List.cons.injEq] at h
  obtain ⟨e1, e2, e3, e4, _, e5, e6, _, e7, e8, _⟩ := h
  have a1 := digitChar_inj _ (Nat.mod_lt _ (by omega)) _ (Nat.mod_lt _ (by omega)) e1
  have a2 := digitChar_inj _ (Nat.mod_lt _ (by omega)) _ (Nat.mod_lt _ (by omega)) e2
  have a3 := digitChar_inj _ (Nat.mod_lt _ (by omega)) _ (Nat.mod_lt _ (by omega)) e3
  have a4 := digitChar_inj _ (Nat.mod_lt _ (by omega)) _ (Nat.mod_lt _ (by omega)) e4
  have a5 := digitChar_inj _ (Nat.mod_lt _ (by omega)) _ (Nat.mod_lt _ (by omega)) e5
  have a6 := digitChar_inj _ (Nat.mod_lt _ (by omega)) _ (Nat.mod_lt _ (by omega)) e6
  have a7 := digitChar_inj _ (Nat.mod_lt _ (by omega)) _ (Nat.mod_lt _ (by omega)) e7
  have a8 := digitChar_inj _ (Nat.mod_lt _ (by omega)) _ (Nat.mod_lt _ (by omega)) e8
  have b1 : y1 < 10000 := hy1
  have b2 : mo1 ≤ 12 := hmo1
  have b3 : da1 ≤ 31 := hda1
  have c1 : y2 < 10000 := hy2
  have c2 : mo2 ≤ 12 := hmo2
  have c3 : da2 ≤ 31 := hda2
  simp only [Date.mk.injEq]
  refine ⟨by omega, by omega, by omega⟩

/-- C5: the day-partitioned output filename is exactly the configured
prefix string, then the date as YYYY-MM-DD, then ".txt"; distinct valid
calendar dates give distinct filenames. -/
theorem output_filename_by_date (outputLogPre : String) (d1 d2 : Date)
    (h1 : d1.Valid) (h2 : d2.Valid) :
    getOutputLogFilename outputLogPre d1 = outputLogPre ++ formatDate d1 ++ ".txt" ∧
    (d1 ≠ d2 → getOutputLogFilename outputLogPre d1 ≠ getOutputLogFilename outputLogPre d2) := by
  refine ⟨rfl, fun hne heq => hne ?_⟩
  apply formatDateChars_inj h1 h2
  have hd : (getOutputLogFilename outputLogPre d1).data =
      (getOutputLogFilename outputLogPre d2).data := by rw [heq]
  simp only [getOutputLogFilename, formatDate, String.data_append,
    List.append_assoc] at hd
  exact List.append_cancel_right (List.append_cancel_left hd)

/-- Witness for C5 on two concrete consecutive dates. -/
theorem output_filename_by_date_witness :
    getOutputLogFilename "parsed_log_" ⟨2025, 3, 1⟩ =
      "parsed_log_" ++ formatDate ⟨2025, 3, 1⟩ ++ ".txt" ∧
    getOutputLogFilename "parsed_log_" ⟨2025, 3, 1⟩ ≠
      getOutputLogFilename "parsed_log_" ⟨2025, 3, 2⟩ :=
  ⟨(output_filename_by_date "parsed_log_" ⟨2025, 3, 1⟩ ⟨2025, 3, 2⟩
      (by decide) (by decide)).1,
    (output_filename_by_date "parsed_log_" ⟨2025, 3, 1⟩ ⟨2025, 3, 2⟩
      (by decide) (by decide)).2 (by decide)⟩

/-- Counterexample to C6 as stated: `process_line` reads the clock once for
the timestamp and again (inside `get_output_log_filename`) for the
filename; when midnight falls between the two reads, the record carrying
the 2025-01-01 timestamp is appended to the 2025-01-02 file, so the date
encoded in the filename differs from the date portion of the record. -/
theorem filename_date_race_cex :
    (processLine ⟨"parsed_log_", some false, [("OnPlayerJoined", ⟨some "#00FF00"⟩)]⟩
      ⟨⟨2025, 1, 1⟩, 23, 59, 59⟩ ⟨⟨2025, 1, 2⟩, 0, 0, 0⟩
      "OnPlayerJoined User123\n" ⟨[], [], []⟩).files =
      [("parsed_log_2025-01-02.txt", "2025-01-01 23:59:59 - OnPlayerJoined User123\n")] ∧
    (("2025-01-01 23:59:59 - OnPlayerJoined User123\n" : String).data).take 10 =
      (formatDate ⟨2025, 1, 1⟩).data ∧
    ("parsed_log_2025-01-02.txt" : String) =
      getOutputLogFilename "parsed_log_" ⟨2025, 1, 2⟩ ∧
    formatDate ⟨2025, 1, 1⟩ ≠ formatDate ⟨2025, 1, 2⟩ := by
  refine ⟨?_, ?_, ?_, ?_⟩ <;> decide

/-- C6 amended: provided both clock reads during the processing of the line
fall on the same calendar date (no midnight rollover between timestamping
and filename computation), the matched record is appended to the file named
after that date, and the date encoded in the filename equals the date
portion of the timestamp prefixed to the record text. -/
theorem filename_date_matches_timestamp (cfg : Config) (t1 t2 : DateTime)
    (line : String) (st : PipelineState) (ke : String × EventData)
    (h : findEvent cfg.events line = some ke) (hsame : t1.date = t2.date) :
    (processLine cfg t1 t2 line st).files =
      st.files ++ [(cfg.outputLogPre ++ formatDate t1.date ++ ".txt",
        formatTimestamp t1 ++ " - " ++ line)] ∧
    ((formatTimestamp t1 ++ " - " ++ line).data).take 10 =
      (formatDate t1.date).data := by
  constructor
  · simp [processLine, h, getOutputLogFilename, hsame]
  · have hsplit : (formatTimestamp t1 ++ " - " ++ line).data =
        formatDateChars t1.date ++
          (([' '] ++ pad2Chars t1.hour ++ [':'] ++ pad2Chars t1.minute ++
            [':'] ++ pad2Chars t1.second) ++ (" - " : String).data ++ line.data) := by
      simp [formatTimestamp, formatTimestampChars, String.data_append, List.append_assoc]
    rw [hsplit, List.take_left' (formatDateChars_length t1.date)]
    rfl

/-- Witness for the amended C6 at a concrete same-date run. -/
theorem filename_date_matches_timestamp_witness :
    (processLine ⟨"parsed_log_", some false, [("OnPlayerJoined", ⟨some "#00FF00"⟩)]⟩
      ⟨⟨2025, 3, 1⟩, 12, 0, 5⟩ ⟨⟨2025, 3, 1⟩, 12, 0, 6⟩
      "OnPlayerJoined User123\n" ⟨[], [], []⟩).files =
      [] ++ [("parsed_log_" ++ formatDate ⟨2025, 3, 1⟩ ++ ".txt",
        formatTimestamp ⟨⟨2025, 3, 1⟩, 12, 0, 5⟩ ++ " - " ++
          "OnPlayerJoined User123\n")] ∧
    ((formatTimestamp ⟨⟨2025, 3, 1⟩, 12, 0, 5⟩ ++ " - " ++
      "OnPlayerJoined User123\n").data).take 10 =
      (formatDate ⟨2025, 3, 1⟩).data :=
  filename_date_matches_timestamp
    ⟨"parsed_log_", some false, [("OnPlayerJoined", ⟨some "#00FF00"⟩)]⟩
    ⟨⟨2025, 3, 1⟩, 12, 0, 5⟩ ⟨⟨2025, 3, 1⟩, 12, 0, 6⟩
    "OnPlayerJoined User123\n" ⟨[], [], []⟩
    ("OnPlayerJoined", ⟨some "#00FF00"⟩) (by decide) rfl

theorem pyMaxGo_spec (key : α → Int) (ys : List α) :
    ∀ acc : α,
      pyMaxGo key acc ys ∈ acc :: ys ∧
      (∀ z ∈ acc :: ys, key z ≤ key (pyMaxGo key acc ys)) ∧
      ∃ pre post, acc :: ys = pre ++ pyMaxGo key acc ys :: post ∧
        ∀ z ∈ pre, key z < key (pyMaxGo key acc ys) := by
  induction ys with
  | nil =>
    intro acc
    refine ⟨by simp [pyMaxGo], by simp [pyMaxGo], [], [], by simp [pyMaxGo], by simp⟩
  | cons y ys ih =>
    intro acc
    by_cases hlt : key acc < key y
    · have hstep : pyMaxGo key acc (y :: ys) = pyMaxGo key y ys := by
        simp [pyMaxGo, hlt]
      obtain ⟨hmem, hmax, pre, post, hdec, hpre⟩ := ih y
      rw [hstep]
      have hy : key y ≤ key (pyMaxGo key y ys) := hmax y (by simp)
      refine ⟨?_, ?_, acc :: pre, post, ?_, ?_⟩
      · exact List.mem_cons_of_mem acc hmem
      · intro z hz
        rcases List.mem_cons.mp hz with h | h
        · subst h; omega
        · exact hmax z h
      · rw [List.cons_append, ← hdec]
      · intro z hz
        rcases List.mem_cons.mp hz with h | h
        · subst h; omega
        · exact hpre z h
    · have hstep : pyMaxGo key acc (y :: ys) = pyMaxGo key acc ys := by
        simp [pyMaxGo, hlt]
      obtain ⟨hmem, hmax, pre, post, hdec, hpre⟩ := ih acc
      rw [hstep]
      have hacc : key acc ≤ key (pyMaxGo key acc ys) := hmax acc (by simp)
      have hyb : key y ≤ key (pyMaxGo key acc ys) := by omega
      refine ⟨?_, ?_, ?_⟩
      · rcases List.mem_cons.mp hmem with h | h
        · simp [h]
        · simp [List.mem_cons, h]
      · intro z hz
        rcases List.mem_cons.mp hz with h | h
        · subst h; exact hacc
        · rcases List.mem_cons.mp h with h2 | h2
          · subst h2; exact hyb
          · exact hmax z (List.mem_cons_of_mem acc h2)
      · rcases pre with _ | ⟨p0, pre1⟩
        · rw [List.nil_append] at hdec
          injection hdec with h1 h2
          refine ⟨[], y :: ys, ?_, by simp⟩
          rw [List.nil_append, ← h1]
        · rw [List.cons_append] at hdec
          injection hdec with h1 h2
          have hp0lt : key p0 < key (pyMaxGo key acc ys) := hpre p0 (by simp)
          refine ⟨acc :: y :: pre1, post, ?_, ?_⟩
          · rw [List.cons_append, List.cons_append, ← h2]
          · intro z hz
            rcases List.mem_cons.mp hz with h | h
            · subst h; rw [← h1] at hp0lt; exact hp0lt
            · rcases List.mem_cons.mp h with h2b | h2b
              · subst h2b
                rw [← h1] at hp0lt
                omega
              · exact hpre z (List.mem_cons_of_mem p0 h2b)

/-- Counterexample to C4 as stated: with two matching files of equal
modification time, the code (Python `max`, which keeps the first maximal
element) returns the FIRST file observed in enumeration order, not the last
one the claim's tie-break names; the spec-worded resolver differs from the
code at this input. -/
theorem resolver_tie_break_cex :
    getLatestLogFile id (fun _ => ["output_log_01.txt", "output_log_02.txt"])
      (fun _ => 5) "logs" "output_log_*.txt" = some "output_log_01.txt" ∧
    resolveSpecLastTie id (fun _ => ["output_log_01.txt", "output_log_02.txt"])
      (fun _ => 5) "logs" "output_log_*.txt" = some "output_log_02.txt" ∧
    getLatestLogFile id (fun _ => ["output_log_01.txt", "output_log_02.txt"])
      (fun _ => 5) "logs" "output_log_*.txt" ≠
      resolveSpecLastTie id (fun _ => ["output_log_01.txt", "output_log_02.txt"])
        (fun _ => 5) "logs" "output_log_*.txt" := by
  refine ⟨?_, ?_, ?_⟩ <;> decide

/-- C4 amended: the resolver globs the pattern under the expanded directory
and, when no file matches, returns None rather than raising; when files
match it returns one of them bearing the most recent modification
timestamp, breaking ties in favor of the FIRST such file observed in
enumeration order. -/
theorem resolver_picks_newest (expandEnv : String → String)
    (globFn : String → List String) (mtime : String → Int)
    (logDir logPat : String) (fs : List String)
    (hfs : globFn (expandEnv logDir ++ "/" ++ logPat) = fs) :
    (fs = [] → getLatestLogFile expandEnv globFn mtime logDir logPat = none) ∧
    (∀ f, getLatestLogFile expandEnv globFn mtime logDir logPat = some f →
      f ∈ fs ∧ (∀ g ∈ fs, mtime g ≤ mtime f) ∧
      ∃ pre post, fs = pre ++ f :: post ∧ ∀ g ∈ pre, mtime g < mtime f) := by
  constructor
  · intro he
    simp only [getLatestLogFile, hfs, he]
    rfl
  · intro f hf
    simp only [getLatestLogFile, hfs] at hf
    match fs, hf with
    | x :: xs, hf =>
      simp only [List.isEmpty_cons, pyMax] at hf
      obtain ⟨hmem, hmax, pre, post, hdec, hpre⟩ := pyMaxGo_spec mtime xs x
      have hfx : pyMaxGo mtime x xs = f := by
        simpa using hf
      rw [hfx] at hmem hmax hdec hpre
      exact ⟨hmem, hmax, pre, post, hdec, hpre⟩

/-- Witness for the amended C4: an older and a newer file, and an empty
directory. -/
theorem resolver_picks_newest_witness :
    ("output_log_02.txt" ∈ ["output_log_01.txt", "output_log_02.txt"] ∧
      (∀ g ∈ ["output_log_01.txt", "output_log_02.txt"],
        (if g = "output_log_02.txt" then (7 : Int) else 3) ≤
          (if "output_log_02.txt" = "output_log_02.txt" then (7 : Int) else 3)) ∧
      ∃ pre post, ["output_log_01.txt", "output_log_02.txt"] =
          pre ++ "output_log_02.txt" :: post ∧
        ∀ g ∈ pre, (if g = "output_log_02.txt" then (7 : Int) else 3) <
          (if "output_log_02.txt" = "output_log_02.txt" then (7 : Int) else 3)) ∧
    getLatestLogFile id (fun _ => []) (fun _ => 0) "logs" "output_log_*.txt" = none :=
  ⟨(resolver_picks_newest id (fun _ => ["output_log_01.txt", "output_log_02.txt"])
      (fun g => if g = "output_log_02.txt" then (7 : Int) else 3)
      "logs" "output_log_*.txt" ["output_log_01.txt", "output_log_02.txt"] rfl).2
      "output_log_02.txt" (by decide),
    (resolver_picks_newest id (fun _ => []) (fun _ => 0) "logs" "output_log_*.txt"
      [] rfl).1 rfl⟩

/-- C7: the Forwarder attempts queued items strictly in enqueue order; a
failing delivery (the guarded attempt of B yields the caught-and-logged
outcome) is dropped without retry or requeue — B appears exactly once, with
its error logged — and C is still attempted after A and B. -/
theorem forwarder_fifo_drop_on_error (getChannel : Int → Bool) (channelId : Int)
    (send : String → Int → Except String Unit) (A B C : String × String)
    (hch : getChannel channelId = true)
    (hB : (attemptDelivery send B).1 = TryResult.errorLogged) :
    sendMessagesFromQueue getChannel channelId send [A, B, C] =
      [(A, (attemptDelivery send A).1), (B, TryResult.errorLogged),
        (C, (attemptDelivery send C).1)] := by
  simp [sendMessagesFromQueue, hch, hB]

/-- Witness for C7: a channel that exists, a send that raises exactly on
B's text, and three queued items. -/
theorem forwarder_fifo_drop_on_error_witness :
    sendMessagesFromQueue (fun i => i == 42) 42
      (fun m _ => if m = "B" then Except.error "boom" else Except.ok ())
      [("A", "#008000"), ("B", "#008000"), ("C", "#008000")] =
      [(("A", "#008000"),
        (attemptDelivery (fun m _ => if m = "B" then Except.error "boom"
          else Except.ok ()) ("A", "#008000")).1),
        (("B", "#008000"), TryResult.errorLogged),
        (("C", "#008000"),
        (attemptDelivery (fun m _ => if m = "B" then Except.error "boom"
          else Except.ok ()) ("C", "#008000")).1)] :=
  forwarder_fifo_drop_on_error (fun i => i == 42) 42
    (fun m _ => if m = "B" then Except.error "boom" else Except.ok ())
    ("A", "#008000") ("B", "#008000") ("C", "#008000") (by decide) (by decide)

/-- C8: for a matched line, a `(record text, event color)` pair is pushed
onto the queue exactly when `discord.enabled` is true; when it is false or
absent the queue is unchanged; an absent event color defaults to
"#FFFFFF" (the default of `event_data.get("color", "#FFFFFF")`). -/
theorem enqueue_gated_on_enabled (cfg : Config) (t1 t2 : DateTime)
    (line : String) (st : PipelineState) (ke : String × EventData)
    (h : findEvent cfg.events line = some ke) :
    (cfg.discordEnabled = some true →
      (processLine cfg t1 t2 line st).queueMsgs =
        st.queueMsgs ++ [(formatTimestamp t1 ++ " - " ++ line,
          ke.2.color.getD "#FFFFFF")]) ∧
    (cfg.discordEnabled = some false ∨ cfg.discordEnabled = none →
      (processLine cfg t1 t2 line st).queueMsgs = st.queueMsgs) := by
  constructor
  · intro he
    simp [processLine, h, he]
  · rintro (he | he) <;> simp [processLine, h, he]

/-- Witness for C8: an enabled configuration whose event has no color
enqueues the record with the default "#FFFFFF"; the same run with
notification disabled or unconfigured leaves the queue unchanged. -/
theorem enqueue_gated_on_enabled_witness :
    (processLine ⟨"parsed_log_", some true, [("OnPlayerJoined", ⟨none⟩)]⟩
      ⟨⟨2025, 3, 1⟩, 12, 0, 5⟩ ⟨⟨2025, 3, 1⟩, 12, 0, 5⟩
      "OnPlayerJoined User123\n" ⟨[], [], []⟩).queueMsgs =
      [] ++ [(formatTimestamp ⟨⟨2025, 3, 1⟩, 12, 0, 5⟩ ++ " - " ++
        "OnPlayerJoined User123\n", "#FFFFFF")] ∧
    (processLine ⟨"parsed_log_", none, [("OnPlayerJoined", ⟨none⟩)]⟩
      ⟨⟨2025, 3, 1⟩, 12, 0, 5⟩ ⟨⟨2025, 3, 1⟩, 12, 0, 5⟩
      "OnPlayerJoined User123\n" ⟨[], [], []⟩).queueMsgs = [] :=
  ⟨((enqueue_gated_on_enabled ⟨"parsed_log_", some true, [("OnPlayerJoined", ⟨none⟩)]⟩
      ⟨⟨2025, 3, 1⟩, 12, 0, 5⟩ ⟨⟨2025, 3, 1⟩, 12, 0, 5⟩
      "OnPlayerJoined User123\n" ⟨[], [], []⟩ ("OnPlayerJoined", ⟨none⟩)
      (by decide)).1 rfl),
    ((enqueue_gated_on_enabled ⟨"parsed_log_", none, [("OnPlayerJoined", ⟨none⟩)]⟩
      ⟨⟨2025, 3, 1⟩, 12, 0, 5⟩ ⟨⟨2025, 3, 1⟩, 12, 0, 5⟩
      "OnPlayerJoined User123\n" ⟨[], [], []⟩ ("OnPlayerJoined", ⟨none⟩)
      (by decide)).2 (Or.inr rfl))⟩

/-- C9: with the bot token absent (or empty — Python truthiness) the bot is
never started, only the error is printed; and when the configured channel
id (absent configuration defaults it to 0) resolves to no channel, the
send loop logs the error and returns having attempted no delivery. Both
paths return normally rather than raising. -/
theorem missing_credentials_noop (getChannel : Int → Bool)
    (send : String → Int → Except String Unit) (items : List (String × String))
    (channelIdCfg : Option Int)
    (hch : getChannel (effectiveChannelId channelIdCfg) = false) :
    startDiscordBot none = BotStart.noToken ∧
    startDiscordBot (some "") = BotStart.noToken ∧
    effectiveChannelId none = 0 ∧
    sendMessagesFromQueue getChannel (effectiveChannelId channelIdCfg) send items = [] := by
  refine ⟨rfl, rfl, rfl, ?_⟩
  simp [sendMessagesFromQueue, hch]

/-- Witness for C9 with an absent channel id and a nonempty queue. -/
theorem missing_credentials_noop_witness :
    startDiscordBot none = BotStart.noToken ∧
    startDiscordBot (some "") = BotStart.noToken ∧
    effectiveChannelId none = 0 ∧
    sendMessagesFromQueue (fun _ => false) (effectiveChannelId none)
      (fun _ _ => Except.ok ()) [("msg", "#008000")] = [] :=
  missing_credentials_noop (fun _ => false) (fun _ _ => Except.ok ())
    [("msg", "#008000")] none rfl

/-- C10: an item whose color string is not valid hexadecimal after
stripping leading '#' makes the conversion raise inside the guarded
attempt: the exception is caught (outcome errorLogged), no send call is
issued for it, and the loop still attempts every later item in order. -/
theorem invalid_color_caught (send : String → Int → Except String Unit)
    (msg color : String) (h : pyIntBase16 (pyLstripHash color) = none)
    (getChannel : Int → Bool) (channelId : Int) (hch : getChannel channelId = true)
    (pre post : List (String × String)) :
    attemptDelivery send (msg, color) = (TryResult.errorLogged, []) ∧
    sendMessagesFromQueue getChannel channelId send (pre ++ (msg, color) :: post) =
      pre.map (fun it => (it, (attemptDelivery send it).1)) ++
        ((msg, color), TryResult.errorLogged) ::
          post.map (fun it => (it, (attemptDelivery send it).1)) := by
  have hA : attemptDelivery send (msg, color) = (TryResult.errorLogged, []) := by
    simp [attemptDelivery, h]
  refine ⟨hA, ?_⟩
  simp [sendMessagesFromQueue, hch, hA]

/-- Witness for C10: the non-hexadecimal color "#GGHHII" is caught and the
item after it is still attempted. -/
theorem invalid_color_caught_witness :
    attemptDelivery (fun _ _ => Except.ok ()) ("bad", "#GGHHII") =
      (TryResult.errorLogged, []) ∧
    sendMessagesFromQueue (fun _ => true) 0 (fun _ _ => Except.ok ())
      ([] ++ ("bad", "#GGHHII") :: [("ok", "#008000")]) =
      [].map (fun it => (it, (attemptDelivery (fun _ _ => Except.ok ()) it).1)) ++
        (("bad", "#GGHHII"), TryResult.errorLogged) ::
          [("ok", "#008000")].map
            (fun it => (it, (attemptDelivery (fun _ _ => Except.ok ()) it).1)) :=
  invalid_color_caught (fun _ _ => Except.ok ()) "bad" "#GGHHII" (by decide)
    (fun _ => true) 0 rfl [] [("ok", "#008000")]
